import Mathlib

/-!
Shallow embedding of the cycontext core: `ConTextItem` (context_item.py) and
`TagObject` (tag_object.py), together with theorems checking the claims of the
specification against the code. Token indices are modelled as `Int`; Python
sets of labels as `Finset String`; raising as `Except.error`.
-/

/-- ASCII upper-casing of one character, as Python str.upper acts on ASCII. -/
def pyUpperChar (c : Char) : Char :=
  if 'a' ≤ c ∧ c ≤ 'z' then Char.ofNat (c.toNat - 32) else c

/-- ASCII lower-casing of one character, as Python str.lower acts on ASCII. -/
def pyLowerChar (c : Char) : Char :=
  if 'A' ≤ c ∧ c ≤ 'Z' then Char.ofNat (c.toNat + 32) else c

/-- Python str.upper (ASCII fragment). -/
def pyUpper (s : String) : String := ⟨s.data.map pyUpperChar⟩

/-- Python str.lower (ASCII fragment). -/
def pyLower (s : String) : String := ⟨s.data.map pyLowerChar⟩

/-- A validated ConText modifier definition, as stored by
ConTextItem.__init__ after its normalisations (context_item.py lines 32-56). -/
structure ConTextItem where
  literal : String
  category : String
  pattern : Option String
  rule : String
  allowed_types : Option (Finset String)
  excluded_types : Option (Finset String)
  max_targets : Option Int
  max_scope : Option Int
  metadata : Option String

/-- The rule values accepted by ConTextItem (context_item.py line 5). -/
def _ALLOWED_RULES : List String :=
  ["FORWARD", "BACKWARD", "BIDIRECTIONAL", "TERMINATE", "MAX_TARGETS", "MAX_SCOPE"]

/-- True when the optional integer is supplied and non-positive. -/
def optNonPos : Option Int → Bool
  | none => false
  | some n => n ≤ 0

/-- ConTextItem.__init__ (context_item.py lines 7-60): performs the
normalisations and validation checks in source order and either raises
(`Except.error`) or returns the constructed item. -/
def ConTextItem.init (literal category rule : String) (pattern : Option String)
    (allowed_types excluded_types : Option (Finset String))
    (max_targets max_scope : Option Int) (metadata : Option String) :
    Except String ConTextItem :=
  if allowed_types.isSome && excluded_types.isSome then
    .error "A ConTextItem was instantiated with non-null values for both allowed_types and excluded_types."
  else if optNonPos max_targets then
    .error "max_targets must be >= 0 or None."
  else if optNonPos max_scope then
    .error "max_scope must be >= 0 or None."
  else if pyUpper rule ∈ _ALLOWED_RULES then
    .ok { literal := pyLower literal
          category := pyUpper category
          pattern := pattern
          rule := pyUpper rule
          allowed_types := allowed_types.map (Finset.image pyUpper)
          excluded_types := excluded_types.map (Finset.image pyUpper)
          max_targets := max_targets
          max_scope := max_scope
          metadata := metadata }
  else
    .error "Rule not recognized."

/-- A sentence: a half-open token range of the document. -/
structure Sent where
  start : Int
  end_ : Int
deriving DecidableEq

/-- The document view the core needs: the sentence containing each token,
when sentence boundaries have been set (spaCy Token.sent). -/
structure Doc where
  sentAt : Int → Option Sent

/-- A labelled target span (spaCy Span with label_). -/
structure TargetSpan where
  start : Int
  end_ : Int
  label_ : String
deriving DecidableEq

/-- A TagObject (tag_object.py lines 6-25): a ConTextItem matched at a token
span, with its mutable scope and claimed-target state made explicit. -/
structure TagObject where
  context_item : ConTextItem
  start : Int
  end_ : Int
  doc : Doc
  targets : List TargetSpan
  num_targets : Int
  scope_start : Int
  scope_end : Int

/-- Property TagObject.rule (tag_object.py line 33). -/
def TagObject.rule (t : TagObject) : String := t.context_item.rule

/-- Property TagObject.category (tag_object.py line 38). -/
def TagObject.category (t : TagObject) : String := t.context_item.category

/-- Property TagObject.allowed_types (tag_object.py line 48). -/
def TagObject.allowed_types (t : TagObject) : Option (Finset String) :=
  t.context_item.allowed_types

/-- Property TagObject.excluded_types (tag_object.py line 53). -/
def TagObject.excluded_types (t : TagObject) : Option (Finset String) :=
  t.context_item.excluded_types

/-- Property TagObject.max_targets (tag_object.py line 63). -/
def TagObject.max_targets (t : TagObject) : Option Int := t.context_item.max_targets

/-- Property TagObject.max_scope (tag_object.py line 68). -/
def TagObject.max_scope (t : TagObject) : Option Int := t.context_item.max_scope

/-- TagObject.set_scope (tag_object.py lines 88-138), as a function of the
item, the matched span and the document: raises when the first token has no
sentence, otherwise returns the computed (scope_start, scope_end). -/
def set_scope (ci : ConTextItem) (start end_ : Int) (doc : Doc) :
    Except String (Int × Int) :=
  match doc.sentAt start with
  | none => .error "ConText failed because sentence boundaries have not been set."
  | some sent =>
    if pyLower ci.rule = "forward" then
      .ok (end_,
        match ci.max_scope with
        | some k => if sent.end_ - end_ > k then end_ + k else sent.end_
        | none => sent.end_)
    else if pyLower ci.rule = "backward" then
      .ok ((match ci.max_scope with
        | some k => if start - sent.start > k then start - k else sent.start
        | none => sent.start), start)
    else
      .ok ((match ci.max_scope with
        | some k => if start - sent.start > k then start - k else sent.start
        | none => sent.start),
        match ci.max_scope with
        | some k => if sent.end_ - end_ > k then end_ + k else sent.end_
        | none => sent.end_)

/-- TagObject.__init__ (tag_object.py lines 6-25): stores the fields and
immediately computes the scope via set_scope. -/
def TagObject.init (context_item : ConTextItem) (start end_ : Int) (doc : Doc) :
    Except String TagObject :=
  match set_scope context_item start end_ doc with
  | .error e => .error e
  | .ok (ss, se) =>
    .ok { context_item := context_item, start := start, end_ := end_, doc := doc,
          targets := [], num_targets := 0, scope_start := ss, scope_end := se }

/-- Strict span order by (start, end) lexicographically, as used by the
comparison operators on TagObject (tag_object.py lines 255-265). -/
def spanLtB (s1 e1 s2 e2 : Int) : Bool := s1 < s2 || (s1 = s2 && e1 < e2)

/-- TagObject.__lt__: a.span < b.span. -/
def TagObject.lt (a b : TagObject) : Bool := spanLtB a.start a.end_ b.start b.end_

/-- TagObject.__gt__: a.span > b.span. -/
def TagObject.gt (a b : TagObject) : Bool := spanLtB b.start b.end_ a.start a.end_

/-- The AttributeError raised at tag_object.py line 168, where limit_scope
reads self.context_item.terminated_by although ConTextItem.__init__
(context_item.py lines 7-60) never defines such an attribute. -/
def attrErrTerminatedBy : String :=
  "AttributeError: ConTextItem object has no attribute terminated_by"

/-- The forward clip of limit_scope (tag_object.py lines 181-183): when self
is forward or bidirectional and other lies strictly after self, the scope end
is cut to min(scope end, other.start). -/
def limit_scope_new_end (self other : TagObject) : Int :=
  if (pyLower self.rule = "forward" ∨ pyLower self.rule = "bidirectional") ∧
      TagObject.gt other self = true then min self.scope_end other.start
  else self.scope_end

/-- The backward clip of limit_scope (tag_object.py lines 184-186): when self
is backward or bidirectional and other lies strictly before self, the scope
start is raised to max(scope start, other.end). -/
def limit_scope_new_start (self other : TagObject) : Int :=
  if (pyLower self.rule = "backward" ∨ pyLower self.rule = "bidirectional") ∧
      TagObject.lt other self = true then max self.scope_start other.end_
  else self.scope_start

/-- TagObject.limit_scope (tag_object.py lines 148-187). Returns the changed
flag and the (possibly) updated self; reaching the eligibility test with a
non-TERMINATE other evaluates the missing terminated_by attribute, which
raises. The final flag compares the original scope with the new one. -/
def limit_scope (self other : TagObject) : Except String (Bool × TagObject) :=
  if self.doc.sentAt self.start ≠ other.doc.sentAt other.start then .ok (false, self)
  else if pyUpper self.rule = "TERMINATE" then .ok (false, self)
  else if pyUpper other.rule ≠ "TERMINATE" then .error attrErrTerminatedBy
  else if self.category = other.category ∧
      (self.allowed_types ≠ other.allowed_types ∨
        self.excluded_types ≠ other.excluded_types) then
    .ok (false, self)
  else
    .ok (decide ((self.scope_start, self.scope_end) ≠
        (limit_scope_new_start self other, limit_scope_new_end self other)),
      { self with scope_start := limit_scope_new_start self other,
                  scope_end := limit_scope_new_end self other })

/-- Token membership in a half-open span (spaCy: token in span). -/
def token_in (i s e : Int) : Bool := s ≤ i && i < e

/-- TagObject.overlaps_target (tag_object.py lines 246-253): boundary-token
containment between self.span and the target span. -/
def overlaps_target (self : TagObject) (target : TargetSpan) : Bool :=
  token_in self.start target.start target.end_ ||
  token_in (self.end_ - 1) target.start target.end_ ||
  token_in target.start self.start self.end_ ||
  token_in (target.end_ - 1) self.start self.end_

/-- TagObject.allows (tag_object.py lines 72-86). -/
def allows (self : TagObject) (target_label : String) : Bool :=
  match self.allowed_types with
  | some s => decide (target_label ∈ s)
  | none =>
    match self.excluded_types with
    | some s => decide (target_label ∉ s)
    | none => true

/-- TagObject.modifies (tag_object.py lines 189-209). -/
def modifies (self : TagObject) (target : TargetSpan) : Bool :=
  if overlaps_target self target then false
  else if self.rule = "TERMINATE" then false
  else if ¬ allows self (pyUpper target.label_) then false
  else if token_in target.start self.scope_start self.scope_end then true
  else if token_in (target.end_ - 1) self.scope_start self.scope_end then true
  else false

/-- TagObject.modify (tag_object.py lines 211-214). -/
def TagObject.modify (self : TagObject) (target : TargetSpan) : TagObject :=
  { self with targets := self.targets ++ [target], num_targets := self.num_targets + 1 }

/-- The distance used by reduce_targets (tag_object.py line 226). -/
def target_dist (self : TagObject) (target : TargetSpan) : Nat :=
  min (self.start - target.end_).natAbs (target.start - self.end_).natAbs

/-- TagObject.reduce_targets (tag_object.py lines 216-230): Python sorted is
a stable sort by the distance key, modelled by insertion sort with a
non-strict comparison. -/
def reduce_targets (self : TagObject) : TagObject :=
  match self.max_targets with
  | none => self
  | some m =>
    if self.num_targets ≤ m then self
    else
      let srtd := self.targets.insertionSort
        (fun a b => target_dist self a ≤ target_dist self b)
      let kept := srtd.take m.toNat
      { self with targets := kept, num_targets := kept.length }

/-- Scope computation as worded by the specification: per rule, a default
scope from the sentence boundaries, then the max_scope clip, the two
bidirectional clips being evaluated unconditionally. Stated separately from
set_scope so that the claim compares the code with the spec wording. -/
def set_scope_spec (ci : ConTextItem) (start end_ : Int) (sent : Sent) : Int × Int :=
  if pyLower ci.rule = "forward" then
    let scope := (end_, sent.end_)
    match ci.max_scope with
    | some k => if scope.2 - scope.1 > k then (scope.1, end_ + k) else scope
    | none => scope
  else if pyLower ci.rule = "backward" then
    let scope := (sent.start, start)
    match ci.max_scope with
    | some k => if scope.2 - scope.1 > k then (start - k, scope.2) else scope
    | none => scope
  else
    let scope := (sent.start, sent.end_)
    let scope1 := match ci.max_scope with
      | some k => if start - scope.1 > k then (start - k, scope.2) else scope
      | none => scope
    match ci.max_scope with
    | some k => if scope1.2 - end_ > k then (scope1.1, end_ + k) else scope1
    | none => scope1

/-- The retained-target list as worded by the specification: annotate each
claimed target with its claim position, sort by distance with claim position
as the tie-break (the mathematical reading of a stable ascending sort), keep
the first max_targets entries. -/
def reduce_targets_spec (self : TagObject) (m : Int) : List TargetSpan :=
  ((self.targets.enum.insertionSort
    (fun a b => target_dist self a.2 < target_dist self b.2 ∨
      (target_dist self a.2 = target_dist self b.2 ∧ a.1 ≤ b.1))).take m.toNat).map
    Prod.snd

/-- A document whose every token lies in the sentence of tokens 0 to 9. -/
def doc0 : Doc := ⟨fun _ => some ⟨0, 10⟩⟩

/-- A document with no sentence information. -/
def docNoSent : Doc := ⟨fun _ => none⟩

/-- Concrete forward negation item. -/
def ciNeg : ConTextItem :=
  { literal := "no", category := "NEGATED_EXISTENCE", pattern := none, rule := "FORWARD",
    allowed_types := none, excluded_types := none, max_targets := none, max_scope := none,
    metadata := none }

/-- Concrete forward historical item, a different category from ciNeg. -/
def ciHist : ConTextItem :=
  { literal := "history of", category := "HISTORICAL", pattern := none, rule := "FORWARD",
    allowed_types := none, excluded_types := none, max_targets := none, max_scope := none,
    metadata := none }

/-- Concrete terminator item of category CONJ. -/
def ciTermConj : ConTextItem :=
  { literal := "but", category := "CONJ", pattern := none, rule := "TERMINATE",
    allowed_types := none, excluded_types := none, max_targets := none, max_scope := none,
    metadata := none }

/-- Concrete terminator item sharing ciNeg's category but with an allowed_types
filter, so the two differ in type filters. -/
def ciTermNegAllowed : ConTextItem :=
  { literal := "but", category := "NEGATED_EXISTENCE", pattern := none, rule := "TERMINATE",
    allowed_types := some {"PROBLEM"}, excluded_types := none, max_targets := none,
    max_scope := none, metadata := none }

/-- Concrete forward item with a max_scope cap of 3. -/
def ciNegCap3 : ConTextItem :=
  { literal := "no", category := "NEGATED_EXISTENCE", pattern := none, rule := "FORWARD",
    allowed_types := none, excluded_types := none, max_targets := none, max_scope := some 3,
    metadata := none }

/-- Concrete forward item with a max_targets cap of 2. -/
def ciNegMax2 : ConTextItem :=
  { literal := "no", category := "NEGATED_EXISTENCE", pattern := none, rule := "FORWARD",
    allowed_types := none, excluded_types := none, max_targets := some 2, max_scope := none,
    metadata := none }

/-- Occurrence of ciNeg at tokens 1 to 2, scope as set_scope computes it. -/
def tagNeg : TagObject :=
  { context_item := ciNeg, start := 1, end_ := 2, doc := doc0, targets := [],
    num_targets := 0, scope_start := 2, scope_end := 10 }

/-- Occurrence of ciHist at tokens 4 to 5. -/
def tagHist : TagObject :=
  { context_item := ciHist, start := 4, end_ := 5, doc := doc0, targets := [],
    num_targets := 0, scope_start := 5, scope_end := 10 }

/-- Occurrence of the CONJ terminator at tokens 4 to 5. -/
def tagTermConj : TagObject :=
  { context_item := ciTermConj, start := 4, end_ := 5, doc := doc0, targets := [],
    num_targets := 0, scope_start := 0, scope_end := 10 }

/-- Occurrence of ciTermNegAllowed at tokens 4 to 5. -/
def tagTermNegAllowed : TagObject :=
  { context_item := ciTermNegAllowed, start := 4, end_ := 5, doc := doc0, targets := [],
    num_targets := 0, scope_start := 0, scope_end := 10 }

/-- tagNeg after its forward scope is clipped at token 4 by the terminator. -/
def tagNegClipped : TagObject :=
  { context_item := ciNeg, start := 1, end_ := 2, doc := doc0, targets := [],
    num_targets := 0, scope_start := 2, scope_end := 4 }

/-- Concrete targets for the reduce_targets example. -/
def tgA : TargetSpan := { start := 0, end_ := 1, label_ := "PROBLEM" }

/-- Second concrete target, the nearest to tagReduce. -/
def tgB : TargetSpan := { start := 7, end_ := 8, label_ := "PROBLEM" }

/-- Third concrete target, tied in distance with tgD but claimed earlier. -/
def tgC : TargetSpan := { start := 2, end_ := 3, label_ := "PROBLEM" }

/-- Fourth concrete target, tied in distance with tgC but claimed later. -/
def tgD : TargetSpan := { start := 8, end_ := 9, label_ := "PROBLEM" }

/-- Occurrence of ciNegMax2 at tokens 5 to 6 that has claimed four targets. -/
def tagReduce : TagObject :=
  { context_item := ciNegMax2, start := 5, end_ := 6, doc := doc0,
    targets := [tgA, tgB, tgC, tgD], num_targets := 4, scope_start := 6, scope_end := 10 }

theorem orderedInsert_dist_lex {α : Type} (key idx : α → Nat) (a : α) (l : List α)
    (h : ∀ b ∈ l, idx a < idx b) :
    l.orderedInsert (fun x y => key x ≤ key y) a =
      l.orderedInsert (fun x y => key x < key y ∨ (key x = key y ∧ idx x ≤ idx y)) a := by
  induction l with
  | nil => rfl
  | cons b l ih =>
    have hb := h b (List.mem_cons_self b l)
    by_cases hk : key a ≤ key b
    · have h2 : key a < key b ∨ (key a = key b ∧ idx a ≤ idx b) := by
        rcases lt_or_eq_of_le hk with h3 | h3
        · exact Or.inl h3
        · exact Or.inr ⟨h3, le_of_lt hb⟩
      simp only [List.orderedInsert, if_pos hk, if_pos h2]
    · have h2 : ¬(key a < key b ∨ (key a = key b ∧ idx a ≤ idx b)) := by
        rintro (h3 | ⟨h3, _⟩)
        · exact hk (le_of_lt h3)
        · exact hk (le_of_eq h3)
      simp only [List.orderedInsert, if_neg hk, if_neg h2]
      rw [ih (fun c hc => h c (List.mem_cons_of_mem b hc))]

theorem insertionSort_dist_lex {α : Type} (key idx : α → Nat) (l : List α)
    (h : l.Pairwise fun x y => idx x < idx y) :
    l.insertionSort (fun x y => key x ≤ key y) =
      l.insertionSort (fun x y => key x < key y ∨ (key x = key y ∧ idx x ≤ idx y)) := by
  induction l with
  | nil => rfl
  | cons a l ih =>
    rw [List.insertionSort, List.insertionSort, ih (List.pairwise_cons.mp h).2]
    exact orderedInsert_dist_lex key idx a _ (fun b hb =>
      (List.pairwise_cons.mp h).1 b ((List.mem_insertionSort _).mp hb))

theorem fst_le_of_mem_enumFrom {α : Type} (n : Nat) (l : List α) (b : Nat × α)
    (hb : b ∈ l.enumFrom n) : n ≤ b.1 := by
  induction l generalizing n with
  | nil => simp [List.enumFrom] at hb
  | cons a l ih =>
    rw [List.enumFrom_cons] at hb
    rcases List.mem_cons.mp hb with h | h
    · subst h; exact le_refl n
    · exact le_trans (Nat.le_succ n) (ih (n + 1) h)

theorem pairwise_fst_lt_enumFrom {α : Type} (n : Nat) (l : List α) :
    (l.enumFrom n).Pairwise fun x y => x.1 < y.1 := by
  induction l generalizing n with
  | nil => exact List.Pairwise.nil
  | cons a l ih =>
    rw [List.enumFrom_cons]
    refine List.pairwise_cons.mpr ⟨?_, ih (n + 1)⟩
    intro b hb
    exact lt_of_lt_of_le (Nat.lt_succ_self n) (fst_le_of_mem_enumFrom (n + 1) l b hb)

theorem pairwise_fst_lt_enum {α : Type} (l : List α) :
    l.enum.Pairwise fun x y => x.1 < y.1 := by
  simpa [List.enum] using pairwise_fst_lt_enumFrom 0 l

/-- C9: set_scope raises exactly when the sentence of the occurrence's first
token is absent, and never raises when it is present. -/
theorem set_scope_error_iff_missing_sentence (ci : ConTextItem) (start end_ : Int)
    (doc : Doc) :
    (∃ msg, set_scope ci start end_ doc = .error msg) ↔ doc.sentAt start = none := by
  cases hs : doc.sentAt start with
  | none => simp [set_scope, hs]
  | some sent =>
    simp only [set_scope, hs]
    split_ifs <;> simp

/-- C6: ConTextItem construction raises exactly when both type-filter sets are
supplied, the upper-cased rule is unrecognized, max_targets is supplied and
non-positive, or max_scope is supplied and non-positive. -/
theorem contextItem_init_error_iff (literal category rule : String)
    (pattern : Option String) (a e : Option (Finset String)) (mt ms : Option Int)
    (md : Option String) :
    (∃ msg, ConTextItem.init literal category rule pattern a e mt ms md = .error msg) ↔
      ((a.isSome ∧ e.isSome) ∨ pyUpper rule ∉ _ALLOWED_RULES ∨
        (∃ n, mt = some n ∧ n ≤ 0) ∨ (∃ n, ms = some n ∧ n ≤ 0)) := by
  have hmt : optNonPos mt = true ↔ ∃ n, mt = some n ∧ n ≤ 0 := by
    cases mt <;> simp [optNonPos]
  have hms : optNonPos ms = true ↔ ∃ n, ms = some n ∧ n ≤ 0 := by
    cases ms <;> simp [optNonPos]
  simp only [ConTextItem.init]
  split_ifs with h1 h2 h3 h4
  · exact iff_of_true ⟨_, rfl⟩ (Or.inl (by simpa [Bool.and_eq_true] using h1))
  · exact iff_of_true ⟨_, rfl⟩ (Or.inr (Or.inr (Or.inl (hmt.mp h2))))
  · exact iff_of_true ⟨_, rfl⟩ (Or.inr (Or.inr (Or.inr (hms.mp h3))))
  · refine iff_of_false ?_ ?_
    · rintro ⟨msg, hmsg⟩
      exact hmsg
    · rintro (hc | hc | hc | hc)
      · exact h1 (by simp [hc.1, hc.2])
      · exact hc h4
      · exact h2 (hmt.mpr hc)
      · exact h3 (hms.mpr hc)
  · exact iff_of_true ⟨_, rfl⟩ (Or.inr (Or.inl h4))

/-- C3: for every occurrence whose first token's sentence is present,
set_scope computes exactly the scope described by the specification: the
per-rule default scope with the max_scope clips, the two clips of the
default (bidirectional) branch evaluated unconditionally. -/
theorem set_scope_matches_spec (ci : ConTextItem) (start end_ : Int) (doc : Doc)
    (sent : Sent) (hsent : doc.sentAt start = some sent) :
    set_scope ci start end_ doc = .ok (set_scope_spec ci start end_ sent) := by
  simp only [set_scope, hsent, set_scope_spec]
  rcases hms : ci.max_scope with _ | k <;> simp only [hms] <;> split_ifs <;> rfl

/-- C7: for an occurrence whose span lies within its sentence, the scope
computed by set_scope stays inside the sentence when max_scope is unset, and
with max_scope k each side of the scope, measured from the occurrence's own
span boundary, has length at most k. -/
theorem set_scope_scope_bounds (ci : ConTextItem) (start end_ : Int) (doc : Doc)
    (sent : Sent) (ss se : Int) (hsent : doc.sentAt start = some sent)
    (h1 : sent.start ≤ start) (h2 : start ≤ end_) (h3 : end_ ≤ sent.end_)
    (hok : set_scope ci start end_ doc = .ok (ss, se)) :
    (ci.max_scope = none → pyUpper ci.rule ≠ "TERMINATE" →
      sent.start ≤ ss ∧ se ≤ sent.end_) ∧
    (∀ k, ci.max_scope = some k → 0 < k → start - ss ≤ k ∧ se - end_ ≤ k) := by
  simp only [set_scope, hsent] at hok
  constructor
  · intro hnone _
    simp only [hnone] at hok
    split_ifs at hok <;>
      (simp only [Except.ok.injEq, Prod.mk.injEq] at hok; obtain ⟨hss, hse⟩ := hok; omega)
  · intro k hk hkpos
    simp only [hk] at hok
    split_ifs at hok <;>
      (simp only [Except.ok.injEq, Prod.mk.injEq] at hok; obtain ⟨hss, hse⟩ := hok; omega)

/-- C2: whenever self and other lie in the same sentence and neither rule is
TERMINATE, limit_scope raises the attribute-lookup error for the undefined
terminated_by field before any scope mutation. -/
theorem limit_scope_attribute_error (self other : TagObject)
    (hsent : self.doc.sentAt self.start = other.doc.sentAt other.start)
    (h1 : pyUpper self.rule ≠ "TERMINATE") (h2 : pyUpper other.rule ≠ "TERMINATE") :
    limit_scope self other = .error attrErrTerminatedBy := by
  simp only [limit_scope]
  rw [if_neg (by simp [hsent]), if_neg h1, if_pos h2]

/-- C1: a concrete same-sentence pair of non-TERMINATE occurrences of
different categories on which limit_scope raises instead of returning False
as the specification prescribes. -/
theorem limit_scope_raises_on_nonterminate_pair :
    limit_scope tagNeg tagHist = .error attrErrTerminatedBy := by
  simp only [limit_scope]
  rw [if_neg (by decide), if_neg (by decide), if_pos (by decide)]

/-- C10: when other is a terminator of the same category as self but the two
differ in a type filter, the same-category filter exemption makes limit_scope
return False with self unchanged. -/
theorem limit_scope_same_category_different_filters (self other : TagObject)
    (hsent : self.doc.sentAt self.start = other.doc.sentAt other.start)
    (h1 : pyUpper self.rule ≠ "TERMINATE") (h2 : pyUpper other.rule = "TERMINATE")
    (hcat : self.category = other.category)
    (hft : self.allowed_types ≠ other.allowed_types ∨
      self.excluded_types ≠ other.excluded_types) :
    limit_scope self other = .ok (false, self) := by
  simp only [limit_scope]
  rw [if_neg (by simp [hsent]), if_neg h1, if_neg (by simp [h2]), if_pos ⟨hcat, hft⟩]

/-- C8: whenever limit_scope returns normally, the resulting scope start is
no smaller and the resulting scope end no larger than before: the scope never
grows in either direction. -/
theorem limit_scope_monotonic (self other : TagObject) (b : Bool) (t : TagObject)
    (h : limit_scope self other = .ok (b, t)) :
    self.scope_start ≤ t.scope_start ∧ t.scope_end ≤ self.scope_end := by
  simp only [limit_scope] at h
  split_ifs at h <;>
    simp only [Except.ok.injEq, Prod.mk.injEq] at h
  case _ =>
    obtain ⟨-, ht⟩ := h
    rw [← ht]
    exact ⟨le_refl _, le_refl _⟩
  case _ =>
    obtain ⟨-, ht⟩ := h
    rw [← ht]
    exact ⟨le_refl _, le_refl _⟩
  case _ =>
    obtain ⟨-, ht⟩ := h
    rw [← ht]
    exact ⟨le_refl _, le_refl _⟩
  case _ =>
    obtain ⟨-, ht⟩ := h
    rw [← ht]
    constructor
    · show self.scope_start ≤ limit_scope_new_start self other
      unfold limit_scope_new_start
      split_ifs
      · exact le_max_left _ _
      · exact le_refl _
    · show limit_scope_new_end self other ≤ self.scope_end
      unfold limit_scope_new_end
      split_ifs
      · exact min_le_left _ _
      · exact le_refl _

theorem allows_eq_true_iff (self : TagObject) (lab : String)
    (hvalid : ¬(self.allowed_types.isSome ∧ self.excluded_types.isSome)) :
    allows self lab = true ↔
      ¬((∃ s, self.allowed_types = some s ∧ lab ∉ s) ∨
        (∃ s, self.excluded_types = some s ∧ lab ∈ s)) := by
  rcases ha : self.allowed_types with _ | s1
  · rcases he : self.excluded_types with _ | s2
    · simp [allows, ha, he]
    · simp [allows, ha, he]
  · rcases he : self.excluded_types with _ | s2
    · simp [allows, ha, he]
    · exact absurd ⟨by simp [ha], by simp [he]⟩ hvalid

theorem modifies_eq_true_iff (self : TagObject) (target : TargetSpan) :
    modifies self target = true ↔
      (overlaps_target self target = false ∧ self.rule ≠ "TERMINATE" ∧
        allows self (pyUpper target.label_) = true ∧
        (token_in target.start self.scope_start self.scope_end = true ∨
          token_in (target.end_ - 1) self.scope_start self.scope_end = true)) := by
  simp only [modifies]
  split_ifs with hov hr hal ht1 ht2 <;> simp_all

/-- C4: modifies returns False whenever the modifier span and the target share
a boundary token, whenever the rule is TERMINATE, and whenever the type filter
rejects the target label; otherwise it returns True exactly when the target's
first or last token lies within the scope. Stated for occurrences whose item
does not carry both type filters, which construction guarantees. -/
theorem modifies_characterization (self : TagObject) (target : TargetSpan)
    (hvalid : ¬(self.allowed_types.isSome ∧ self.excluded_types.isSome)) :
    modifies self target = true ↔
      (overlaps_target self target = false ∧ self.rule ≠ "TERMINATE" ∧
        ¬((∃ s, self.allowed_types = some s ∧ pyUpper target.label_ ∉ s) ∨
          (∃ s, self.excluded_types = some s ∧ pyUpper target.label_ ∈ s)) ∧
        (token_in target.start self.scope_start self.scope_end = true ∨
          token_in (target.end_ - 1) self.scope_start self.scope_end = true)) := by
  rw [modifies_eq_true_iff, allows_eq_true_iff self _ hvalid]

/-- C5: reduce_targets is a no-op when max_targets is unset or the claimed
count is within the cap; otherwise it retains exactly the max_targets claimed
targets of smallest distance, ties broken by original claim order. -/
theorem reduce_targets_characterization (self : TagObject) :
    (self.max_targets = none → reduce_targets self = self) ∧
    (∀ m, self.max_targets = some m → self.num_targets ≤ m →
      reduce_targets self = self) ∧
    (∀ m, self.max_targets = some m → m < self.num_targets →
      (reduce_targets self).targets = reduce_targets_spec self m) := by
  refine ⟨?_, ?_, ?_⟩
  · intro h
    simp [reduce_targets, h]
  · intro m hm hle
    simp [reduce_targets, hm, hle]
  · intro m hm hlt
    simp only [reduce_targets, hm, if_neg (not_le.mpr hlt)]
    unfold reduce_targets_spec
    rw [← insertionSort_dist_lex (fun p => target_dist self p.2) Prod.fst _
      (pairwise_fst_lt_enum self.targets)]
    rw [List.map_take]
    rw [List.map_insertionSort
      (fun x y : Nat × TargetSpan => target_dist self x.2 ≤ target_dist self y.2)
      (fun x y : TargetSpan => target_dist self x ≤ target_dist self y)
      Prod.snd _ (fun a _ b _ => Iff.rfl)]
    rw [List.enum_map_snd]

/-- Witness for C2: a concrete same-sentence pair of non-terminators on which
limit_scope raises the attribute error. -/
theorem limit_scope_attribute_error_witness :
    limit_scope tagHist tagNeg = .error attrErrTerminatedBy :=
  limit_scope_attribute_error tagHist tagNeg rfl (by decide) (by decide)

/-- Witness for C3: a concrete capped forward occurrence. -/
theorem set_scope_matches_spec_witness :
    set_scope ciNegCap3 1 2 doc0 = .ok (set_scope_spec ciNegCap3 1 2 ⟨0, 10⟩) :=
  set_scope_matches_spec ciNegCap3 1 2 doc0 ⟨0, 10⟩ rfl

/-- Witness for C4: the characterization at a concrete occurrence and target. -/
theorem modifies_characterization_witness :
    modifies tagNeg tgB = true ↔
      (overlaps_target tagNeg tgB = false ∧ tagNeg.rule ≠ "TERMINATE" ∧
        ¬((∃ s, tagNeg.allowed_types = some s ∧ pyUpper tgB.label_ ∉ s) ∨
          (∃ s, tagNeg.excluded_types = some s ∧ pyUpper tgB.label_ ∈ s)) ∧
        (token_in tgB.start tagNeg.scope_start tagNeg.scope_end = true ∨
          token_in (tgB.end_ - 1) tagNeg.scope_start tagNeg.scope_end = true)) :=
  modifies_characterization tagNeg tgB (by decide)

/-- Witness for C5: an occurrence with four claimed targets and a cap of two,
including a distance tie resolved by claim order. -/
theorem reduce_targets_characterization_witness :
    (2 : Int) < tagReduce.num_targets ∧
      (reduce_targets tagReduce).targets = reduce_targets_spec tagReduce 2 :=
  ⟨by decide, (reduce_targets_characterization tagReduce).2.2 2 rfl (by decide)⟩

/-- Witness for C7: the bounds at a concrete capped forward occurrence. -/
theorem set_scope_scope_bounds_witness :
    (ciNegCap3.max_scope = none → pyUpper ciNegCap3.rule ≠ "TERMINATE" →
      (0 : Int) ≤ 5 ∧ (8 : Int) ≤ 10) ∧
    (∀ k, ciNegCap3.max_scope = some k → 0 < k →
      (4 : Int) - 5 ≤ k ∧ (8 : Int) - 5 ≤ k) :=
  set_scope_scope_bounds ciNegCap3 4 5 doc0 ⟨0, 10⟩ 5 8 rfl (by decide) (by decide)
    (by decide) rfl

/-- Witness for C8: a terminator after a forward modifier clips its scope end
from 10 down to 4, and the shrink inequalities hold. -/
theorem limit_scope_monotonic_witness :
    tagNeg.scope_start ≤ tagNegClipped.scope_start ∧
      tagNegClipped.scope_end ≤ tagNeg.scope_end :=
  limit_scope_monotonic tagNeg tagTermConj true tagNegClipped rfl

/-- Witness for C10: a terminator of the same category with a differing
allowed_types filter leaves the forward modifier untouched. -/
theorem limit_scope_same_category_different_filters_witness :
    limit_scope tagNeg tagTermNegAllowed = .ok (false, tagNeg) :=
  limit_scope_same_category_different_filters tagNeg tagTermNegAllowed rfl (by decide)
    (by decide) rfl (Or.inl (by decide))
